import Mathlib

/-!
Shared thread-pool registry, thread creation and CPU count of `threadmisc.cpp`.

A shallow embedding of `src/thirdparty/unrar/threadmisc.cpp`.

* Pointers are natural numbers, `0` is `NULL`.
* `uint` is a natural number reduced modulo `2^32` at every arithmetic step.
* Side effects (mutex operations, `new`/`delete` of `ThreadPool`, calls of the
  error handler) are appended to an event log in program order.
* Results of native calls are inputs of the functions that perform them.
-/

namespace ThreadMisc

/-! ## Machine integers -/

/-- The conversion `(uint)x` of a signed integer. -/
def toUint (x : Int) : Nat := (x % 4294967296).toNat

/-! ## Observable events -/

/-- Text handed to ErrHandler.GeneralErrMsg, kept as the format together with its argument:
pthread_create_failed Code stands for the text (pthread_create failed, code %d) printed with
Code, and CreateThread_failed for the text (CreateThread failed). -/
inductive ErrMsg where
  | pthread_create_failed (Code : Int)
  | CreateThread_failed
  deriving DecidableEq, Repr

/-- Exit codes handed to `ErrHandler.Exit`; this file only ever passes `RARX_FATAL`. -/
inductive RAR_EXIT where
  | RARX_FATAL
  deriving DecidableEq, Repr

/-- Side effects of the functions of this file, in the order in which they are executed. -/
inductive Event where
  | CriticalSectionStart
  | CriticalSectionEnd
  | newThreadPool (p : Nat) (MaxThreads : Nat)
  | deleteThreadPool (p : Nat)
  | GeneralErrMsg (Msg : ErrMsg)
  | SysErrMsg
  | Exit (code : RAR_EXIT)
  deriving DecidableEq, Repr

/-- Recognises `new ThreadPool(..)`. -/
def Event.isNew : Event → Bool
  | .newThreadPool _ _ => true
  | _ => false

/-- Recognises `delete` of a pool. -/
def Event.isDelete : Event → Bool
  | .deleteThreadPool _ => true
  | _ => false

/-- A function either returns to its caller or ends in `ErrHandler.Exit`, which does not return. -/
inductive Outcome (α : Type) where
  | returned (v : α)
  | exited (code : RAR_EXIT)
  deriving DecidableEq, Repr

/-! ## The pool registry -/

/-- Compile-time and run-time environment of the registry: whether `RARDLL` is defined, the
constant `MaxPoolThreads`, and the address `operator new` hands out given the addresses of the
pool objects that are currently allocated. -/
structure Env where
  RARDLL : Bool
  MaxPoolThreads : Nat
  alloc : List Nat → Nat

/-- What C++ guarantees of `new`: the address is not null and is not that of a live object. -/
def FreshAlloc (alloc : List Nat → Nat) : Prop :=
  ∀ l : List Nat, alloc l ≠ 0 ∧ alloc l ∉ l

/-- A concrete allocator: one above the highest live address. -/
def bumpAlloc (l : List Nat) : Nat := l.foldr max 0 + 1

/-- The statics `GlobalPool` and `GlobalPoolUseCount`, together with the set of allocated
`ThreadPool` objects and the log of side effects. -/
structure Registry where
  GlobalPool : Nat
  GlobalPoolUseCount : Nat
  live : List Nat
  log : List Event
  deriving DecidableEq, Repr

/-- Static initialisation: `GlobalPool=NULL`, `GlobalPoolUseCount=0`. -/
def Registry.init : Registry :=
  { GlobalPool := 0, GlobalPoolUseCount := 0, live := [], log := [] }

/-- Records one side effect. -/
def Registry.emit (s : Registry) (e : Event) : Registry :=
  { s with log := s.log ++ [e] }

/-- The expression `new ThreadPool(MaxPoolThreads)`. -/
def newThreadPool (env : Env) (s : Registry) : Registry × Nat :=
  let p := env.alloc s.live
  ({ s with live := p :: s.live, log := s.log ++ [Event.newThreadPool p env.MaxPoolThreads] }, p)

/-- The statement `delete p`: the object at `p` is no longer allocated. For an address that
is not allocated C++ leaves the behaviour undefined; here only the event is recorded. -/
def deleteThreadPool (s : Registry) (p : Nat) : Registry :=
  { s with live := s.live.filter (fun q => decide (q ≠ p)),
           log := s.log ++ [Event.deleteThreadPool p] }

/-- Function `ThreadPool* CreateThreadPool()`: the state after the call and the returned pointer. -/
def CreateThreadPool (env : Env) (s : Registry) : Registry × Nat :=
  let s1 := s.emit Event.CriticalSectionStart
  -- if (GlobalPoolUseCount++ == 0) GlobalPool=new ThreadPool(MaxPoolThreads);
  let old := s1.GlobalPoolUseCount
  let s2 := { s1 with GlobalPoolUseCount := (old + 1) % 4294967296 }
  let s3 :=
    if old = 0 then
      let r := newThreadPool env s2
      { r.1 with GlobalPool := r.2 }
    else s2
  -- #ifdef RARDLL  if (GlobalPoolUseCount > 1) { ... return Pool; }
  if env.RARDLL = true ∧ s3.GlobalPoolUseCount > 1 then
    let r := newThreadPool env s3
    (r.1.emit Event.CriticalSectionEnd, r.2)
  else
    (s3.emit Event.CriticalSectionEnd, s3.GlobalPool)

/-- Function `void DestroyThreadPool(ThreadPool *Pool)`. The conjunction short-circuits, so the
decrement `--GlobalPoolUseCount` is executed only when the three tests before it hold. -/
def DestroyThreadPool (env : Env) (s : Registry) (Pool : Nat) : Registry :=
  let s1 := s.emit Event.CriticalSectionStart
  let s2 :=
    if Pool ≠ 0 ∧ Pool = s1.GlobalPool ∧ s1.GlobalPoolUseCount > 0 then
      let d := { s1 with GlobalPoolUseCount := (s1.GlobalPoolUseCount + 4294967295) % 4294967296 }
      if d.GlobalPoolUseCount = 0 then deleteThreadPool d d.GlobalPool else d
    else s1
  -- #ifdef RARDLL  if (Pool!=NULL && Pool!=GlobalPool) delete Pool;
  let s3 :=
    if env.RARDLL = true ∧ Pool ≠ 0 ∧ Pool ≠ s2.GlobalPool then deleteThreadPool s2 Pool else s2
  s3.emit Event.CriticalSectionEnd

/-- One call of the public interface of the registry. -/
inductive Call where
  | create
  | destroy (Pool : Nat)
  deriving DecidableEq, Repr

/-- Recognises `CreateThreadPool` calls. -/
def Call.isCreate : Call → Bool
  | .create => true
  | .destroy _ => false

/-- Executes one call as one atomic step. -/
def step (env : Env) (s : Registry) : Call → Registry
  | .create => (CreateThreadPool env s).1
  | .destroy Pool => DestroyThreadPool env s Pool

/-- Executes a sequence of calls from left to right. -/
def run (env : Env) (s : Registry) (cs : List Call) : Registry :=
  cs.foldl (step env) s

/-- The sequence `n` times `CreateThreadPool()`: final state and the returned pointers in order. -/
def createN (env : Env) : Nat → Registry → Registry × List Nat
  | 0, s => (s, [])
  | n + 1, s =>
    let r := CreateThreadPool env s
    let t := createN env n r.1
    (t.1, r.2 :: t.2)

/-- The sequence `n` times `DestroyThreadPool(Pool)`. -/
def destroyN (env : Env) (Pool : Nat) : Nat → Registry → Registry
  | 0, s => s
  | n + 1, s => destroyN env Pool n (DestroyThreadPool env s Pool)

/-- Build without `RARDLL`, `MaxPoolThreads` 64, allocator `bumpAlloc`. -/
def envRAR : Env := { RARDLL := false, MaxPoolThreads := 64, alloc := bumpAlloc }

/-- Build with `RARDLL`, `MaxPoolThreads` 64, allocator `bumpAlloc`. -/
def envDLL : Env := { RARDLL := true, MaxPoolThreads := 64, alloc := bumpAlloc }

/-! ## The guard mutex -/

/-- The platform the file is compiled for: `_UNIX` or `_WIN_ALL`. -/
inductive Platform where
  | UNIX
  | WIN_ALL
  deriving DecidableEq, Repr

/-- Function `bool CriticalSectionCreate(CRITSECT_HANDLE*)`. The argument `initCode` is the value
returned by `pthread_mutex_init`; `InitializeCriticalSection` returns nothing. -/
def CriticalSectionCreate (plat : Platform) (initCode : Int) : Bool :=
  match plat with
  | .WIN_ALL => true
  | .UNIX => decide (initCode = 0)

/-- Constructor `GlobalPoolCreateSync() { CriticalSectionCreate(&CritSection); }`: the
value of the call is dropped. Returns how the constructor ends and the error-handler calls
it makes. -/
def GlobalPoolCreateSync (plat : Platform) (initCode : Int) : Outcome Unit × List Event :=
  let _ := CriticalSectionCreate plat initCode
  (Outcome.returned (), [])

/-! ## Thread creation -/

/-- What the native thread-creation call of the platform delivers: `pthread_create` returns
`Code` and stores the thread in `pt`; `CreateThread` returns `hThread` (`0` is `NULL`). -/
inductive NativeThread where
  | pthread_create (Code : Int) (pt : Nat)
  | CreateThread (hThread : Nat)
  deriving DecidableEq, Repr

/-- The native call succeeded. -/
def NativeThread.ok : NativeThread → Bool
  | .pthread_create Code _ => decide (Code = 0)
  | .CreateThread hThread => decide (hThread ≠ 0)

/-- Function `THREAD_HANDLE ThreadCreate(NATIVE_THREAD_PTR Proc,void *Data)`, with the result of the
native call as argument. `ErrHandler.Exit` does not return, so the `return` after it is not
reached. -/
def ThreadCreate : NativeThread → Outcome Nat × List Event
  | .pthread_create Code pt =>
    if Code ≠ 0 then
      (Outcome.exited RAR_EXIT.RARX_FATAL,
        [Event.GeneralErrMsg (ErrMsg.pthread_create_failed Code), Event.SysErrMsg,
         Event.Exit RAR_EXIT.RARX_FATAL])
    else (Outcome.returned pt, [])
  | .CreateThread hThread =>
    if hThread = 0 then
      (Outcome.exited RAR_EXIT.RARX_FATAL,
        [Event.GeneralErrMsg ErrMsg.CreateThread_failed, Event.SysErrMsg,
         Event.Exit RAR_EXIT.RARX_FATAL])
    else (Outcome.returned hThread, [])

/-! ## CPU count -/

/-- The build branch of `GetNumberOfCPU` together with what its native query delivers.
* `noSMP`: `RAR_SMP` is not defined.
* `sysconf ret`: Unix with `_SC_NPROCESSORS_ONLN`; `ret` is the `long` returned by `sysconf`.
* `sysctlbyname ret Count`: Apple; `ret` is the returned code, `Count` the content of the
  `uint` variable after the call.
* `affinity w ok ProcessMask`: Windows with a `DWORD_PTR` of `w` bits; `ok` tells whether
  `GetProcessAffinityMask` succeeded, `ProcessMask` is the mask it stored. -/
inductive CPUQuery where
  | noSMP
  | sysconf (ret : Int)
  | sysctlbyname (ret : Int) (Count : Nat)
  | affinity (w : Nat) (ok : Bool) (ProcessMask : Nat)
  deriving DecidableEq, Repr

/-- The loop `for (DWORD_PTR Mask=1;Mask!=0;Mask<<=1) if ((ProcessMask & Mask)!=0) Count++;`
entered with the given `Mask` and `Count`. Every evaluation of the loop test uses one unit of
fuel. The result is the final `Count` and the number of executions of the loop body, counted
up from `iters`. -/
def affinityLoop (w ProcessMask : Nat) : Nat → Nat → Nat → Nat → Option (Nat × Nat)
  | 0, _, _, _ => none
  | fuel + 1, Mask, Count, iters =>
    if Mask ≠ 0 then
      let Count1 := if ProcessMask &&& Mask ≠ 0 then (Count + 1) % 4294967296 else Count
      affinityLoop w ProcessMask fuel ((Mask <<< 1) % 2 ^ w) Count1 (iters + 1)
    else some (Count, iters)

/-- Function `uint GetNumberOfCPU()`; `fuel` bounds the loop of the Windows branch. -/
def GetNumberOfCPU (fuel : Nat) : CPUQuery → Option Nat
  | .noSMP => some 1
  | .sysconf ret =>
    let Count := toUint ret
    some (if Count < 1 then 1 else Count)
  | .sysctlbyname ret Count => some (if ret = 0 then Count else 1)
  | .affinity w ok ProcessMask =>
    if ok = false then some 1
    else
      match affinityLoop w ProcessMask fuel 1 0 0 with
      | none => none
      | some r => some (if r.1 < 1 then 1 else r.1)

/-- Function `uint GetNumberOfThreads()`, with the value of `GetNumberOfCPU()` and the constant
`MaxPoolThreads` as arguments. -/
def GetNumberOfThreads (MaxPoolThreads NumCPU : Nat) : Nat :=
  if NumCPU < 1 then 1
  else if NumCPU > MaxPoolThreads then MaxPoolThreads
  else NumCPU

/-- Number of set bits among the lowest `w` bits of `m`. -/
def popCount (w m : Nat) : Nat :=
  ((List.range w).filter (fun i => m.testBit i)).length

/-- A state of the `RARDLL` build reached from the empty registry by two acquisitions followed
by two releases of the shared handle: the count is 0 and the private pool at address 2 is
still allocated. -/
def sharedReleasedTwice : Registry :=
  run envDLL Registry.init [Call.create, Call.create, Call.destroy 1, Call.destroy 1]

/-- Two acquisitions followed by the release of the address 2 and of the address 1. -/
def acquireAcquireReleaseRelease : List Call :=
  [Call.create, Call.create, Call.destroy 2, Call.destroy 1]

/-- The events of `n` calls that only acquire and release the guard mutex. -/
def lockPairs : Nat → List Event
  | 0 => []
  | n + 1 => Event.CriticalSectionStart :: Event.CriticalSectionEnd :: lockPairs n

/-- Two acquisitions from the empty registry: the state reached, the pointer returned by the
first call and the pointer returned by the second call. -/
def acquireTwice (env : Env) : Registry × Nat × Nat :=
  let c1 := CreateThreadPool env Registry.init
  let c2 := CreateThreadPool env c1.1
  (c2.1, c1.2, c2.2)

/-- Two acquisitions from the empty registry followed by one release of each returned pointer,
the pointer of the first acquisition being released first when `firstFirst` is true. -/
def acquireTwiceReleaseBoth (env : Env) (firstFirst : Bool) : Registry :=
  let a := acquireTwice env
  if firstFirst = true then
    DestroyThreadPool env (DestroyThreadPool env a.1 a.2.1) a.2.2
  else
    DestroyThreadPool env (DestroyThreadPool env a.1 a.2.2) a.2.1

/-- The registry is coherent: no allocated pool sits at the null address, and while the count
is positive `GlobalPool` points to an allocated pool. -/
def Coherent (s : Registry) : Prop :=
  0 ∉ s.live ∧ (0 < s.GlobalPoolUseCount → s.GlobalPool ∈ s.live)

/-- The registry is coherent, a zero count means that the pool `GlobalPool` points to is not
allocated, and the count is at most `k`. -/
def Balanced (s : Registry) (k : Nat) : Prop :=
  Coherent s ∧ (s.GlobalPoolUseCount = 0 → s.GlobalPool ∉ s.live) ∧ s.GlobalPoolUseCount ≤ k

/-! ## Thread count -/

/-- C4: for a positive `MaxPoolThreads` and every value `NumCPU` reported by `GetNumberOfCPU`,
`GetNumberOfThreads` returns a value between 1 and `MaxPoolThreads`, and a reported count of 0
yields 1. -/
theorem GetNumberOfThreads_bounds (MaxPoolThreads NumCPU : Nat) (hMax : 1 ≤ MaxPoolThreads) :
    1 ≤ GetNumberOfThreads MaxPoolThreads NumCPU ∧
    GetNumberOfThreads MaxPoolThreads NumCPU ≤ MaxPoolThreads ∧
    GetNumberOfThreads MaxPoolThreads 0 = 1 := by
  unfold GetNumberOfThreads
  refine ⟨?_, ?_, by simp⟩ <;> split_ifs <;> omega

/-- Instance of C4 at `MaxPoolThreads = 64` and the count `4294967295` that `(uint)(-1)` gives. -/
theorem GetNumberOfThreads_bounds_witness :
    (1 : Nat) ≤ 64 ∧
    (1 ≤ GetNumberOfThreads 64 4294967295 ∧ GetNumberOfThreads 64 4294967295 ≤ 64 ∧
      GetNumberOfThreads 64 0 = 1) :=
  ⟨by decide, GetNumberOfThreads_bounds 64 4294967295 (by decide)⟩

/-! ## CPU count: the unclamped results -/

/-- C5: in the `sysconf` branch the result `-1` of the query is converted to `uint` before the
test `Count<1`, so `GetNumberOfCPU` returns `4294967295`; in the Apple branch a successful
`sysctlbyname` that stores 0 makes it return 0. -/
theorem GetNumberOfCPU_not_clamped :
    GetNumberOfCPU 0 (CPUQuery.sysconf (-1)) = some 4294967295 ∧
    GetNumberOfCPU 0 (CPUQuery.sysctlbyname 0 0) = some 0 := by
  decide

/-! ## The guard mutex -/

/-- C8: on Unix `CriticalSectionCreate` reports failure exactly when `pthread_mutex_init`
returns a non-zero code, and the constructor of `GlobalPoolCreateSync` returns normally
without any call of the error handler whatever that code is. -/
theorem GlobalPoolCreateSync_ignores_failure (initCode : Int) :
    (CriticalSectionCreate Platform.UNIX initCode = false ↔ initCode ≠ 0) ∧
    GlobalPoolCreateSync Platform.UNIX initCode = (Outcome.returned (), []) := by
  constructor
  · simp [CriticalSectionCreate]
  · rfl

/-! ## Thread creation -/

/-- C9: in both platform branches `ThreadCreate` returns a handle without any call of the
error handler exactly when the native call succeeded, the handle being the one the native call
produced; when the native call failed it calls `GeneralErrMsg`, `SysErrMsg` and
`Exit(RARX_FATAL)` in this order and ends in `Exit` without returning a value. -/
theorem ThreadCreate_escalates (n : NativeThread) :
    ((∃ h, ThreadCreate n = (Outcome.returned h, [])) ↔ n.ok = true) ∧
    (∀ h, (ThreadCreate n).1 = Outcome.returned h →
      (ThreadCreate n).2 = [] ∧
        (n = NativeThread.CreateThread h ∨ ∃ Code, n = NativeThread.pthread_create Code h)) ∧
    (n.ok = false →
      ∃ Msg, ThreadCreate n =
        (Outcome.exited RAR_EXIT.RARX_FATAL,
          [Event.GeneralErrMsg Msg, Event.SysErrMsg, Event.Exit RAR_EXIT.RARX_FATAL])) := by
  cases n with
  | pthread_create Code pt =>
    by_cases hc : Code = 0
    · simp [ThreadCreate, NativeThread.ok, hc]
    · simp [ThreadCreate, NativeThread.ok, hc]
  | CreateThread hThread =>
    by_cases hc : hThread = 0
    · simp [ThreadCreate, NativeThread.ok, hc]
    · simp [ThreadCreate, NativeThread.ok, hc]

/-! ## Release of the pool -/

/-- C7: in every state and in both builds `DestroyThreadPool(NULL)` leaves `GlobalPool`,
`GlobalPoolUseCount` and the allocated pools unchanged, and its only side effects are one
acquisition and one release of the guard mutex: no `delete` and no call of the error handler. -/
theorem DestroyThreadPool_null (env : Env) (s : Registry) :
    (DestroyThreadPool env s 0).GlobalPool = s.GlobalPool ∧
    (DestroyThreadPool env s 0).GlobalPoolUseCount = s.GlobalPoolUseCount ∧
    (DestroyThreadPool env s 0).live = s.live ∧
    (DestroyThreadPool env s 0).log =
      s.log ++ [Event.CriticalSectionStart, Event.CriticalSectionEnd] := by
  simp [DestroyThreadPool, Registry.emit]

/-- The function `DestroyThreadPool` never increases the count. -/
theorem DestroyThreadPool_count_le (env : Env) (s : Registry) (Pool : Nat) :
    (DestroyThreadPool env s Pool).GlobalPoolUseCount ≤ s.GlobalPoolUseCount := by
  unfold DestroyThreadPool
  simp only [Registry.emit, deleteThreadPool]
  split_ifs <;> simp <;> omega

/-- C6, the claim as stated fails: in the `RARDLL` build, in a reachable state whose count is
0, releasing the private pool at address 2 deletes that pool. -/
theorem DestroyThreadPool_zero_count_deletes_private :
    sharedReleasedTwice.GlobalPoolUseCount = 0 ∧
    2 ∈ sharedReleasedTwice.live ∧
    (DestroyThreadPool envDLL sharedReleasedTwice 2).log =
      sharedReleasedTwice.log ++
        [Event.CriticalSectionStart, Event.deleteThreadPool 2, Event.CriticalSectionEnd] ∧
    2 ∉ (DestroyThreadPool envDLL sharedReleasedTwice 2).live := by
  decide

/-- C6 as amended: `DestroyThreadPool` never increases `GlobalPoolUseCount`; when the count is
0 before the call, the count stays 0 and `GlobalPool` is unchanged, and the only `delete` that
can happen is the one of the `RARDLL` build for a non-null `Pool` different from `GlobalPool`;
in every other case the call only acquires and releases the guard mutex. -/
theorem DestroyThreadPool_no_underflow (env : Env) (s : Registry) (Pool : Nat) :
    (DestroyThreadPool env s Pool).GlobalPoolUseCount ≤ s.GlobalPoolUseCount ∧
    (s.GlobalPoolUseCount = 0 →
      (DestroyThreadPool env s Pool).GlobalPoolUseCount = 0 ∧
      (DestroyThreadPool env s Pool).GlobalPool = s.GlobalPool ∧
      (DestroyThreadPool env s Pool).log =
        s.log ++
          (if env.RARDLL = true ∧ Pool ≠ 0 ∧ Pool ≠ s.GlobalPool then
            [Event.CriticalSectionStart, Event.deleteThreadPool Pool, Event.CriticalSectionEnd]
          else [Event.CriticalSectionStart, Event.CriticalSectionEnd]) ∧
      (DestroyThreadPool env s Pool).live =
        (if env.RARDLL = true ∧ Pool ≠ 0 ∧ Pool ≠ s.GlobalPool then
          s.live.filter (fun q => decide (q ≠ Pool))
        else s.live)) := by
  constructor
  · exact DestroyThreadPool_count_le env s Pool
  · intro h0
    unfold DestroyThreadPool
    simp only [Registry.emit, deleteThreadPool, h0]
    split_ifs <;> simp_all

/-! ## CPU count on Windows: the affinity-mask loop -/

/-- Masking with a single bit tests that bit. -/
theorem and_two_pow_ne_zero (m i : Nat) : m &&& 2 ^ i ≠ 0 ↔ m.testBit i = true := by
  constructor
  · intro h
    by_contra hb
    apply h
    apply Nat.eq_of_testBit_eq
    intro j
    rw [Nat.testBit_and, Nat.testBit_two_pow, Nat.zero_testBit]
    by_cases hij : i = j
    · subst hij
      simp [hb]
    · simp [hij]
  · intro hb h
    have h1 : (m &&& 2 ^ i).testBit i = true := by
      rw [Nat.testBit_and, Nat.testBit_two_pow_self, hb]
      rfl
    rw [h, Nat.zero_testBit] at h1
    exact Bool.noConfusion h1

/-- The loop entered at bit `i` with `d` bits left runs its body `d` times and adds the number
of set bits among the positions `i`, ..., `i + d - 1`, provided the fuel exceeds `d`. -/
theorem affinityLoop_from (w m : Nat) :
    ∀ (d i fuel Count iters : Nat), i + d = w → d < fuel → Count + d < 4294967296 →
      affinityLoop w m fuel (2 ^ i % 2 ^ w) Count iters =
        some (Count + ((List.range' i d).filter (fun j => m.testBit j)).length, iters + d) := by
  intro d
  induction d with
  | zero =>
    intro i fuel Count iters hi hf _
    obtain ⟨f, rfl⟩ : ∃ f, fuel = f + 1 := ⟨fuel - 1, by omega⟩
    have hiw : i = w := by omega
    subst hiw
    simp [affinityLoop]
  | succ d ih =>
    intro i fuel Count iters hi hf hc
    obtain ⟨f, rfl⟩ : ∃ f, fuel = f + 1 := ⟨fuel - 1, by omega⟩
    have hlt : 2 ^ i < 2 ^ w := Nat.pow_lt_pow_right (by decide) (by omega)
    have hmask : 2 ^ i % 2 ^ w = 2 ^ i := Nat.mod_eq_of_lt hlt
    have hpos : 2 ^ i ≠ 0 := Nat.pos_iff_ne_zero.mp (Nat.pow_pos (by decide))
    have hshift : (2 ^ i <<< 1) % 2 ^ w = 2 ^ (i + 1) % 2 ^ w := by
      rw [Nat.shiftLeft_eq, Nat.pow_one, Nat.pow_succ]
    rw [hmask]
    unfold affinityLoop
    simp only [hpos, ne_eq, not_false_eq_true, if_true, hshift]
    rw [ih (i + 1) f _ (iters + 1) (by omega) (by omega)]
    · rw [List.range'_succ, List.filter_cons]
      by_cases hb : m.testBit i = true
      · have hand : ¬ (m &&& 2 ^ i = 0) := (and_two_pow_ne_zero m i).mpr hb
        have hmod : (Count + 1) % 4294967296 = Count + 1 := Nat.mod_eq_of_lt (by omega)
        simp only [hand, not_false_eq_true, if_true, hb, hmod, List.length_cons]
        congr 2 <;> omega
      · have hand : m &&& 2 ^ i = 0 := by
          by_contra hne
          exact hb ((and_two_pow_ne_zero m i).mp hne)
        simp only [hand, not_true_eq_false, if_false, hb]
        congr 2
        omega
    · split_ifs
      · have : (Count + 1) % 4294967296 ≤ Count + 1 := Nat.mod_le _ _
        omega
      · omega

/-- With fuel for at most `d` loop tests the loop entered with `d` bits left does not finish. -/
theorem affinityLoop_fuel_short (w m : Nat) :
    ∀ (fuel d i Count iters : Nat), i + d = w → fuel ≤ d →
      affinityLoop w m fuel (2 ^ i % 2 ^ w) Count iters = none := by
  intro fuel
  induction fuel with
  | zero =>
    intro d i Count iters _ _
    rfl
  | succ f ih =>
    intro d i Count iters hi hf
    obtain ⟨e, rfl⟩ : ∃ e, d = e + 1 := ⟨d - 1, by omega⟩
    have hlt : 2 ^ i < 2 ^ w := Nat.pow_lt_pow_right (by decide) (by omega)
    have hmask : 2 ^ i % 2 ^ w = 2 ^ i := Nat.mod_eq_of_lt hlt
    have hpos : 2 ^ i ≠ 0 := Nat.pos_iff_ne_zero.mp (Nat.pow_pos (by decide))
    have hshift : (2 ^ i <<< 1) % 2 ^ w = 2 ^ (i + 1) % 2 ^ w := by
      rw [Nat.shiftLeft_eq, Nat.pow_one, Nat.pow_succ]
    rw [hmask]
    unfold affinityLoop
    simp only [hpos, ne_eq, not_false_eq_true, if_true, hshift]
    exact ih e (i + 1) _ _ (by omega) (by omega)

/-- The number of set bits among the lowest `w` bits is at most `w`. -/
theorem popCount_le (w m : Nat) : popCount w m ≤ w := by
  unfold popCount
  calc ((List.range w).filter (fun i => m.testBit i)).length
      ≤ (List.range w).length := List.length_filter_le _ _
    _ = w := List.length_range w

/-- A mask of `w` bits has no set bit exactly when it is zero. -/
theorem popCount_eq_zero (w m : Nat) (hm : m < 2 ^ w) : popCount w m = 0 ↔ m = 0 := by
  unfold popCount
  constructor
  · intro h
    have hnil : (List.range w).filter (fun i => m.testBit i) = [] := List.length_eq_zero.mp h
    apply Nat.eq_of_testBit_eq
    intro j
    rw [Nat.zero_testBit]
    by_cases hj : j < w
    · have hmem := List.filter_eq_nil_iff.mp hnil j (List.mem_range.mpr hj)
      simpa using hmem
    · exact Nat.testBit_lt_two_pow
        (Nat.lt_of_lt_of_le hm (Nat.pow_le_pow_right (by decide) (by omega)))
  · intro h
    subst h
    simp

/-- C10: in the Windows branch, for a word width `w` of 32 or 64 bits and every affinity mask
of that width delivered by a successful `GetProcessAffinityMask`, the loop started with
`Mask=1` ends after exactly `w` executions of its body (it ends whenever the fuel exceeds `w`
and not with less), `GetNumberOfCPU` returns the number of set bits of the mask, or 1 when the
mask is zero, so a value between 1 and `w`; when `GetProcessAffinityMask` fails it returns 1. -/
theorem GetNumberOfCPU_affinity (w ProcessMask fuel : Nat) (hw : w = 32 ∨ w = 64)
    (hm : ProcessMask < 2 ^ w) (hf : w < fuel) :
    affinityLoop w ProcessMask fuel 1 0 0 = some (popCount w ProcessMask, w) ∧
    affinityLoop w ProcessMask w 1 0 0 = none ∧
    GetNumberOfCPU fuel (CPUQuery.affinity w true ProcessMask) =
      some (if ProcessMask = 0 then 1 else popCount w ProcessMask) ∧
    (∃ r, GetNumberOfCPU fuel (CPUQuery.affinity w true ProcessMask) = some r ∧
      1 ≤ r ∧ r ≤ w) ∧
    GetNumberOfCPU fuel (CPUQuery.affinity w false ProcessMask) = some 1 := by
  have hw1 : 1 < 2 ^ w := by
    rcases hw with h | h <;> subst h <;> decide
  have hone : (1 : Nat) = 2 ^ 0 % 2 ^ w := by
    rw [Nat.pow_zero, Nat.mod_eq_of_lt hw1]
  have hwlt : 0 + w < 4294967296 := by
    rcases hw with h | h <;> subst h <;> decide
  have hloop : affinityLoop w ProcessMask fuel 1 0 0 = some (popCount w ProcessMask, w) := by
    have h := affinityLoop_from w ProcessMask w 0 fuel 0 0 (by omega) hf hwlt
    rw [← hone] at h
    rw [h, popCount, List.range_eq_range']
    simp
  have hle := popCount_le w ProcessMask
  have hzero := popCount_eq_zero w ProcessMask hm
  have hcpu : GetNumberOfCPU fuel (CPUQuery.affinity w true ProcessMask) =
      some (if ProcessMask = 0 then 1 else popCount w ProcessMask) := by
    simp only [GetNumberOfCPU, hloop]
    by_cases h0 : ProcessMask = 0
    · have hp : popCount w ProcessMask = 0 := hzero.mpr h0
      rw [hp, if_pos h0]
      rfl
    · have hp : ¬ popCount w ProcessMask = 0 := fun h => h0 (hzero.mp h)
      have hp1 : ¬ popCount w ProcessMask < 1 := by omega
      simp [h0, hp1]
  refine ⟨hloop, ?_, hcpu, ?_, ?_⟩
  · have h := affinityLoop_fuel_short w ProcessMask w w 0 0 0 (by omega) (Nat.le_refl w)
    rw [← hone] at h
    exact h
  · refine ⟨_, hcpu, ?_, ?_⟩
    · split_ifs with h0
      · exact Nat.le_refl 1
      · have hp : ¬ popCount w ProcessMask = 0 := fun h => h0 (hzero.mp h)
        omega
    · split_ifs with h0
      · rcases hw with h | h <;> subst h <;> decide
      · exact hle
  · simp [GetNumberOfCPU]

/-- Instance of C10 for a 32-bit mask with the bits 0 and 2 set and fuel for 33 loop tests. -/
theorem GetNumberOfCPU_affinity_witness :
    ((32 : Nat) = 32 ∨ (32 : Nat) = 64) ∧ (5 : Nat) < 2 ^ 32 ∧ (32 : Nat) < 33 ∧
    (affinityLoop 32 5 33 1 0 0 = some (popCount 32 5, 32) ∧
      affinityLoop 32 5 32 1 0 0 = none ∧
      GetNumberOfCPU 33 (CPUQuery.affinity 32 true 5) =
        some (if (5 : Nat) = 0 then 1 else popCount 32 5) ∧
      (∃ r, GetNumberOfCPU 33 (CPUQuery.affinity 32 true 5) = some r ∧ 1 ≤ r ∧ r ≤ 32) ∧
      GetNumberOfCPU 33 (CPUQuery.affinity 32 false 5) = some 1) :=
  ⟨Or.inl rfl, by decide, by decide,
    GetNumberOfCPU_affinity 32 5 33 (Or.inl rfl) (by decide) (by decide)⟩

/-! ## The registry: single calls -/

/-- The allocator `bumpAlloc` never returns null or a live address. -/
theorem bumpAlloc_fresh : FreshAlloc bumpAlloc := by
  have hmax : ∀ (l : List Nat) (x : Nat), x ∈ l → x ≤ l.foldr max 0 := by
    intro l
    induction l with
    | nil => intro x hx; cases hx
    | cons a t ih =>
      intro x hx
      rw [List.foldr_cons]
      rcases List.mem_cons.mp hx with h | h
      · subst h
        exact Nat.le_max_left _ _
      · exact Nat.le_trans (ih x h) (Nat.le_max_right _ _)
  intro l
  refine ⟨Nat.succ_ne_zero _, ?_⟩
  intro hmem
  have := hmax l _ hmem
  unfold bumpAlloc at this
  omega

/-- An acquisition with count 0 constructs a pool, stores it in `GlobalPool` and returns it. -/
theorem CreateThreadPool_first (env : Env) (s : Registry) (h0 : s.GlobalPoolUseCount = 0) :
    CreateThreadPool env s =
      ({ GlobalPool := env.alloc s.live, GlobalPoolUseCount := 1,
         live := env.alloc s.live :: s.live,
         log := s.log ++ [Event.CriticalSectionStart,
           Event.newThreadPool (env.alloc s.live) env.MaxPoolThreads,
           Event.CriticalSectionEnd] }, env.alloc s.live) := by
  simp [CreateThreadPool, newThreadPool, Registry.emit, h0]

/-- Without `RARDLL` an acquisition with a non-zero count only increments the count. -/
theorem CreateThreadPool_shared (env : Env) (s : Registry) (hR : env.RARDLL = false)
    (h0 : s.GlobalPoolUseCount ≠ 0) :
    CreateThreadPool env s =
      ({ s with GlobalPoolUseCount := (s.GlobalPoolUseCount + 1) % 4294967296,
                log := s.log ++ [Event.CriticalSectionStart, Event.CriticalSectionEnd] },
        s.GlobalPool) := by
  simp [CreateThreadPool, Registry.emit, h0, hR]

/-- With `RARDLL` an acquisition that leaves the count above 1 constructs a private pool. -/
theorem CreateThreadPool_private (env : Env) (s : Registry) (hR : env.RARDLL = true)
    (h0 : s.GlobalPoolUseCount ≠ 0) (h1 : 1 < (s.GlobalPoolUseCount + 1) % 4294967296) :
    CreateThreadPool env s =
      ({ s with GlobalPoolUseCount := (s.GlobalPoolUseCount + 1) % 4294967296,
                live := env.alloc s.live :: s.live,
                log := s.log ++ [Event.CriticalSectionStart,
                  Event.newThreadPool (env.alloc s.live) env.MaxPoolThreads,
                  Event.CriticalSectionEnd] },
        env.alloc s.live) := by
  simp [CreateThreadPool, newThreadPool, Registry.emit, h0, hR, h1]

/-- Without `RARDLL` a release with count 0 only acquires and releases the guard mutex. -/
theorem DestroyThreadPool_idle (env : Env) (s : Registry) (Pool : Nat)
    (hR : env.RARDLL = false) (h0 : s.GlobalPoolUseCount = 0) :
    DestroyThreadPool env s Pool =
      { s with log := s.log ++ [Event.CriticalSectionStart, Event.CriticalSectionEnd] } := by
  simp [DestroyThreadPool, Registry.emit, h0, hR]

/-- A release of the shared pointer with a count above 1 only decrements the count. -/
theorem DestroyThreadPool_shared (env : Env) (s : Registry)
    (hg : s.GlobalPool ≠ 0) (h1 : 1 < s.GlobalPoolUseCount)
    (hlt : s.GlobalPoolUseCount < 4294967296) :
    DestroyThreadPool env s s.GlobalPool =
      { s with GlobalPoolUseCount := s.GlobalPoolUseCount - 1,
               log := s.log ++ [Event.CriticalSectionStart, Event.CriticalSectionEnd] } := by
  have hdec : (s.GlobalPoolUseCount + 4294967295) % 4294967296 = s.GlobalPoolUseCount - 1 := by
    omega
  have hne : ¬ (s.GlobalPoolUseCount - 1 = 0) := by omega
  have hpos : 0 < s.GlobalPoolUseCount := by omega
  simp [DestroyThreadPool, Registry.emit, hg, hpos, hdec, hne]

/-- A release of the shared pointer with count 1 deletes the shared pool. -/
theorem DestroyThreadPool_last (env : Env) (s : Registry)
    (hg : s.GlobalPool ≠ 0) (h1 : s.GlobalPoolUseCount = 1) :
    DestroyThreadPool env s s.GlobalPool =
      { s with GlobalPoolUseCount := 0,
               live := s.live.filter (fun q => decide (q ≠ s.GlobalPool)),
               log := s.log ++ [Event.CriticalSectionStart,
                 Event.deleteThreadPool s.GlobalPool, Event.CriticalSectionEnd] } := by
  have hdec : (s.GlobalPoolUseCount + 4294967295) % 4294967296 = 0 := by
    rw [h1]
  have hpos : 0 < s.GlobalPoolUseCount := by omega
  simp only [DestroyThreadPool, Registry.emit, deleteThreadPool, hdec, hpos]
  simp [hg]

/-! ## The registry: invariants over call sequences -/

/-- Membership in the allocated pools after `delete p`. -/
theorem mem_filter_ne (l : List Nat) (p x : Nat) :
    x ∈ l.filter (fun q => decide (q ≠ p)) ↔ x ∈ l ∧ x ≠ p := by
  simp [List.mem_filter]

/-- Coherence is kept by `CreateThreadPool`. -/
theorem CreateThreadPool_coherent (env : Env) (hfresh : FreshAlloc env.alloc) (s : Registry)
    (h : Coherent s) : Coherent (CreateThreadPool env s).1 := by
  obtain ⟨hnull, hpos⟩ := h
  have hf := hfresh s.live
  by_cases h0 : s.GlobalPoolUseCount = 0
  · rw [CreateThreadPool_first env s h0]
    refine ⟨?_, ?_⟩
    · intro hmem
      rcases List.mem_cons.mp hmem with h | h
      · exact hf.1 h.symm
      · exact hnull h
    · intro _
      exact List.mem_cons_self _ _
  · have hg : s.GlobalPool ∈ s.live := hpos (by omega)
    by_cases hR : env.RARDLL = true ∧ 1 < (s.GlobalPoolUseCount + 1) % 4294967296
    · rw [CreateThreadPool_private env s hR.1 h0 hR.2]
      refine ⟨?_, ?_⟩
      · intro hmem
        rcases List.mem_cons.mp hmem with h | h
        · exact hf.1 h.symm
        · exact hnull h
      · intro _
        exact List.mem_cons_of_mem _ hg
    · have hs : (CreateThreadPool env s).1 =
          { s with GlobalPoolUseCount := (s.GlobalPoolUseCount + 1) % 4294967296,
                   log := s.log ++ [Event.CriticalSectionStart, Event.CriticalSectionEnd] } := by
        simp only [CreateThreadPool, Registry.emit, h0, if_false]
        rw [if_neg (show ¬(env.RARDLL = true ∧ (s.GlobalPoolUseCount + 1) % 4294967296 > 1)
          from hR)]
        simp
      rw [hs]
      exact ⟨hnull, fun _ => hg⟩

/-- Coherence is kept by `DestroyThreadPool`, whatever pointer is passed. -/
theorem DestroyThreadPool_coherent (env : Env) (s : Registry) (Pool : Nat)
    (h : Coherent s) : Coherent (DestroyThreadPool env s Pool) := by
  obtain ⟨hnull, hpos⟩ := h
  unfold Coherent DestroyThreadPool
  simp only [Registry.emit, deleteThreadPool]
  split_ifs <;> simp_all [mem_filter_ne]
  omega

/-- Coherence holds after every sequence of calls started in a coherent state. -/
theorem run_coherent (env : Env) (hfresh : FreshAlloc env.alloc) (cs : List Call) :
    ∀ s : Registry, Coherent s → Coherent (run env s cs) := by
  induction cs with
  | nil => intro s h; exact h
  | cons c t ih =>
    intro s h
    have hstep : Coherent (step env s c) := by
      cases c with
      | create => exact CreateThreadPool_coherent env hfresh s h
      | destroy Pool => exact DestroyThreadPool_coherent env s Pool h
    exact ih (step env s c) hstep

/-- While the counter cannot wrap, `CreateThreadPool` keeps the registry balanced. -/
theorem CreateThreadPool_balanced (env : Env) (hfresh : FreshAlloc env.alloc) (s : Registry)
    (k : Nat) (hk : k + 1 < 4294967296) (h : Balanced s k) :
    Balanced (CreateThreadPool env s).1 (k + 1) := by
  obtain ⟨hco, _, hle⟩ := h
  refine ⟨CreateThreadPool_coherent env hfresh s hco, ?_, ?_⟩
  · intro hz
    exfalso
    have hmod : (s.GlobalPoolUseCount + 1) % 4294967296 = s.GlobalPoolUseCount + 1 :=
      Nat.mod_eq_of_lt (by omega)
    revert hz
    unfold CreateThreadPool
    simp only [Registry.emit, newThreadPool]
    split_ifs <;> simp [hmod]
  · have hmod : (s.GlobalPoolUseCount + 1) % 4294967296 = s.GlobalPoolUseCount + 1 :=
      Nat.mod_eq_of_lt (by omega)
    unfold CreateThreadPool
    simp only [Registry.emit, newThreadPool]
    split_ifs <;> simp [hmod] <;> omega

/-- The function `DestroyThreadPool` keeps the registry balanced, whatever pointer is passed. -/
theorem DestroyThreadPool_balanced (env : Env) (s : Registry) (Pool k : Nat)
    (h : Balanced s k) : Balanced (DestroyThreadPool env s Pool) k := by
  obtain ⟨hco, hz, hle⟩ := h
  refine ⟨DestroyThreadPool_coherent env s Pool hco, ?_, ?_⟩
  · unfold DestroyThreadPool
    simp only [Registry.emit, deleteThreadPool]
    split_ifs <;> simp_all [mem_filter_ne]
  · have := (DestroyThreadPool_count_le env s Pool)
    omega

/-- A sequence of calls keeps the registry balanced as long as the acquisitions do not exhaust
the range of the counter. -/
theorem run_balanced (env : Env) (hfresh : FreshAlloc env.alloc) (cs : List Call) :
    ∀ (s : Registry) (k : Nat), Balanced s k →
      k + (cs.filter Call.isCreate).length < 4294967296 →
      Balanced (run env s cs) (k + (cs.filter Call.isCreate).length) := by
  induction cs with
  | nil => intro s k h _; exact h
  | cons c t ih =>
    intro s k h hk
    cases c with
    | create =>
      have hlen : ((Call.create :: t).filter Call.isCreate).length =
          (t.filter Call.isCreate).length + 1 := by
        simp [List.filter_cons, Call.isCreate]
      rw [hlen] at hk ⊢
      have hb := CreateThreadPool_balanced env hfresh s k (by omega) h
      have := ih (CreateThreadPool env s).1 (k + 1) hb (by omega)
      have heq : k + ((t.filter Call.isCreate).length + 1) =
          k + 1 + (t.filter Call.isCreate).length := by omega
      rw [heq]
      exact this
    | destroy Pool =>
      have hlen : ((Call.destroy Pool :: t).filter Call.isCreate).length =
          (t.filter Call.isCreate).length := by
        simp [List.filter_cons, Call.isCreate]
      rw [hlen] at hk ⊢
      exact ih (DestroyThreadPool env s Pool) k (DestroyThreadPool_balanced env s Pool k h) hk

/-- The empty registry is balanced with bound 0. -/
theorem init_balanced : Balanced Registry.init 0 := by
  simp [Balanced, Coherent, Registry.init]

/-- C1, the claim as stated fails: without `RARDLL`, after one acquisition and the release of
the returned pointer the count is 0 while `GlobalPool` still holds the address of the deleted
pool, so it is not null. -/
theorem GlobalPool_not_cleared :
    ¬ ((run envRAR Registry.init [Call.create, Call.destroy 1]).GlobalPool ≠ 0 ↔
        (run envRAR Registry.init [Call.create, Call.destroy 1]).GlobalPoolUseCount > 0) := by
  decide

/-- C1 as amended: after every finite sequence of calls from the empty registry, in both
builds and with any pointer arguments, a positive count implies that `GlobalPool` is not null
and points to an allocated pool; and when the sequence has fewer than `2^32` acquisitions the
pool `GlobalPool` points to is allocated if and only if the count is positive. -/
theorem registry_presence (env : Env) (hfresh : FreshAlloc env.alloc) (cs : List Call) :
    ((run env Registry.init cs).GlobalPoolUseCount > 0 →
      (run env Registry.init cs).GlobalPool ≠ 0 ∧
      (run env Registry.init cs).GlobalPool ∈ (run env Registry.init cs).live) ∧
    ((cs.filter Call.isCreate).length < 4294967296 →
      ((run env Registry.init cs).GlobalPool ∈ (run env Registry.init cs).live ↔
        (run env Registry.init cs).GlobalPoolUseCount > 0)) := by
  have hco := run_coherent env hfresh cs Registry.init init_balanced.1
  constructor
  · intro hpos
    have hmem := hco.2 hpos
    refine ⟨?_, hmem⟩
    intro hz
    rw [hz] at hmem
    exact hco.1 hmem
  · intro hlen
    have hb := run_balanced env hfresh cs Registry.init 0 init_balanced (by omega)
    constructor
    · intro hmem
      by_contra hn
      exact hb.2.1 (by omega) hmem
    · intro hpos
      exact hco.2 hpos

/-- Instance of C1 as amended in the `RARDLL` build: two acquisitions, then the release of the
private and of the shared pointer. -/
theorem registry_presence_witness :
    FreshAlloc envDLL.alloc ∧
    (((run envDLL Registry.init acquireAcquireReleaseRelease).GlobalPoolUseCount > 0 →
      (run envDLL Registry.init acquireAcquireReleaseRelease).GlobalPool ≠ 0 ∧
      (run envDLL Registry.init acquireAcquireReleaseRelease).GlobalPool ∈
        (run envDLL Registry.init acquireAcquireReleaseRelease).live) ∧
    ((acquireAcquireReleaseRelease.filter Call.isCreate).length < 4294967296 →
      ((run envDLL Registry.init acquireAcquireReleaseRelease).GlobalPool ∈
          (run envDLL Registry.init acquireAcquireReleaseRelease).live ↔
        (run envDLL Registry.init acquireAcquireReleaseRelease).GlobalPoolUseCount > 0))) :=
  ⟨bumpAlloc_fresh, registry_presence envDLL bumpAlloc_fresh acquireAcquireReleaseRelease⟩

/-! ## The registry: two acquisitions in the `RARDLL` build -/

/-- In the `RARDLL` build two acquisitions from the empty registry leave the shared pool
`g` and the private pool `p` allocated with count 2; the first call returned `g`, the second
returned `p`. -/
theorem acquireTwice_eq (env : Env) (hR : env.RARDLL = true) :
    acquireTwice env =
      ({ GlobalPool := env.alloc [], GlobalPoolUseCount := 2,
         live := [env.alloc [env.alloc []], env.alloc []],
         log := [Event.CriticalSectionStart,
           Event.newThreadPool (env.alloc []) env.MaxPoolThreads,
           Event.CriticalSectionEnd,
           Event.CriticalSectionStart,
           Event.newThreadPool (env.alloc [env.alloc []]) env.MaxPoolThreads,
           Event.CriticalSectionEnd] },
        env.alloc [], env.alloc [env.alloc []]) := by
  unfold acquireTwice
  rw [CreateThreadPool_first env Registry.init rfl]
  simp only [Registry.init]
  rw [CreateThreadPool_private env _ hR (by simp) (by simp)]
  simp

/-- C2: in the `RARDLL` build, from the empty registry, the first of two acquisitions returns
the shared pool and the second a private pool at another address; after each of the two
pointers has been released once, in either order, the count is 1 and not 0, and the shared
pool is still allocated: only the private pool has been deleted. -/
theorem private_release_keeps_count (env : Env) (hR : env.RARDLL = true)
    (hfresh : FreshAlloc env.alloc) :
    (acquireTwice env).2.1 = (acquireTwice env).1.GlobalPool ∧
    (acquireTwice env).2.2 ≠ (acquireTwice env).2.1 ∧
    (∀ firstFirst : Bool,
      (acquireTwiceReleaseBoth env firstFirst).GlobalPoolUseCount = 1 ∧
      (acquireTwiceReleaseBoth env firstFirst).live = [(acquireTwice env).2.1] ∧
      (acquireTwiceReleaseBoth env firstFirst).log.filter Event.isDelete =
        [Event.deleteThreadPool (acquireTwice env).2.2]) := by
  have hg : env.alloc [] ≠ 0 := (hfresh []).1
  have hp : env.alloc [env.alloc []] ≠ 0 := (hfresh [env.alloc []]).1
  have hpg : env.alloc [env.alloc []] ≠ env.alloc [] := by
    intro h
    exact (hfresh [env.alloc []]).2 (by rw [h]; exact List.mem_singleton_self _)
  have hgp : env.alloc [] ≠ env.alloc [env.alloc []] := fun h => hpg h.symm
  have hdec : (2 + 4294967295) % 4294967296 = 1 := by decide
  refine ⟨?_, ?_, ?_⟩
  · rw [acquireTwice_eq env hR]
  · rw [acquireTwice_eq env hR]
    exact hpg
  · intro firstFirst
    unfold acquireTwiceReleaseBoth
    rw [acquireTwice_eq env hR]
    cases firstFirst <;>
      simp [DestroyThreadPool, deleteThreadPool, Registry.emit, hR, hg, hp, hpg, hgp, hdec,
        Event.isDelete, List.filter_cons]

/-- Instance of C2 with the allocator `bumpAlloc`: the shared pool is at address 1, the private
pool at address 2. -/
theorem private_release_keeps_count_witness :
    envDLL.RARDLL = true ∧ FreshAlloc envDLL.alloc ∧
    ((acquireTwice envDLL).2.1 = (acquireTwice envDLL).1.GlobalPool ∧
    (acquireTwice envDLL).2.2 ≠ (acquireTwice envDLL).2.1 ∧
    (∀ firstFirst : Bool,
      (acquireTwiceReleaseBoth envDLL firstFirst).GlobalPoolUseCount = 1 ∧
      (acquireTwiceReleaseBoth envDLL firstFirst).live = [(acquireTwice envDLL).2.1] ∧
      (acquireTwiceReleaseBoth envDLL firstFirst).log.filter Event.isDelete =
        [Event.deleteThreadPool (acquireTwice envDLL).2.2])) :=
  ⟨rfl, bumpAlloc_fresh, private_release_keeps_count envDLL rfl bumpAlloc_fresh⟩

/-! ## The registry: repeated acquisition and release without `RARDLL` -/

/-- Calls that only lock and unlock construct nothing. -/
theorem lockPairs_filter_isNew (n : Nat) : (lockPairs n).filter Event.isNew = [] := by
  induction n with
  | zero => rfl
  | succ n ih => simp only [lockPairs, List.filter_cons, Event.isNew, ih]; rfl

/-- Calls that only lock and unlock delete nothing. -/
theorem lockPairs_filter_isDelete (n : Nat) : (lockPairs n).filter Event.isDelete = [] := by
  induction n with
  | zero => rfl
  | succ n ih => simp only [lockPairs, List.filter_cons, Event.isDelete, ih]; rfl

/-- One more lock and unlock in front. -/
theorem lockPairs_succ_append (l : List Event) (n : Nat) :
    (l ++ [Event.CriticalSectionStart, Event.CriticalSectionEnd]) ++ lockPairs n =
      l ++ lockPairs (n + 1) := by
  simp [lockPairs]

/-- Without `RARDLL`, `n` acquisitions in a state with a positive count only add `n` to the
count, modulo `2^32`, and return `GlobalPool` each time; the counter wraps at most at the last
of them. -/
theorem createN_shared (env : Env) (hR : env.RARDLL = false) :
    ∀ (n : Nat) (s : Registry), 0 < s.GlobalPoolUseCount → s.GlobalPoolUseCount < 4294967296 →
      s.GlobalPoolUseCount + n ≤ 4294967296 →
      createN env n s =
        ({ s with GlobalPoolUseCount := (s.GlobalPoolUseCount + n) % 4294967296,
                  log := s.log ++ lockPairs n },
          List.replicate n s.GlobalPool) := by
  intro n
  induction n with
  | zero =>
    intro s _ hlt _
    have hmod : s.GlobalPoolUseCount % 4294967296 = s.GlobalPoolUseCount :=
      Nat.mod_eq_of_lt hlt
    simp [createN, lockPairs, hmod]
  | succ n ih =>
    intro s hpos hlt hsum
    have hstep := CreateThreadPool_shared env s hR (by omega)
    cases n with
    | zero =>
      simp only [createN, hstep]
      simp [lockPairs]
    | succ m =>
      have hmod : (s.GlobalPoolUseCount + 1) % 4294967296 = s.GlobalPoolUseCount + 1 :=
        Nat.mod_eq_of_lt (by omega)
      rw [hmod] at hstep
      have hih := ih { s with GlobalPoolUseCount := s.GlobalPoolUseCount + 1,
                              log := s.log ++
                                [Event.CriticalSectionStart, Event.CriticalSectionEnd] }
        (by simp) (by simp; omega) (by simp; omega)
      have harith : s.GlobalPoolUseCount + 1 + (m + 1) = s.GlobalPoolUseCount + (m + 1 + 1) := by
        omega
      rw [createN, hstep]
      simp only [hih, lockPairs_succ_append, harith, List.replicate_succ]

/-- Without `RARDLL`, `n` acquisitions from the empty registry, `n` between 1 and `2^32`,
construct one pool at the first call and return it every time. -/
theorem createN_init (env : Env) (hR : env.RARDLL = false) (n : Nat) (h1 : 1 ≤ n)
    (hn : n ≤ 4294967296) :
    createN env n Registry.init =
      ({ GlobalPool := env.alloc [], GlobalPoolUseCount := n % 4294967296,
         live := [env.alloc []],
         log := [Event.CriticalSectionStart,
           Event.newThreadPool (env.alloc []) env.MaxPoolThreads,
           Event.CriticalSectionEnd] ++ lockPairs (n - 1) },
        List.replicate n (env.alloc [])) := by
  obtain ⟨m, rfl⟩ : ∃ m, n = m + 1 := ⟨n - 1, by omega⟩
  rw [createN, CreateThreadPool_first env Registry.init rfl]
  simp only [Registry.init]
  rw [createN_shared env hR m _ (by simp) (by simp) (by simp; omega)]
  have harith : 1 + m = m + 1 := by omega
  simp [List.replicate_succ, harith]

/-- Releasing the shared pointer `k` times while the count exceeds `k` only lowers the count. -/
theorem destroyN_shared (env : Env) :
    ∀ (k : Nat) (s : Registry), s.GlobalPool ≠ 0 → k < s.GlobalPoolUseCount →
      s.GlobalPoolUseCount < 4294967296 →
      destroyN env s.GlobalPool k s =
        { s with GlobalPoolUseCount := s.GlobalPoolUseCount - k,
                 log := s.log ++ lockPairs k } := by
  intro k
  induction k with
  | zero =>
    intro s _ _ _
    simp [destroyN, lockPairs]
  | succ k ih =>
    intro s hg hk hlt
    rw [destroyN, DestroyThreadPool_shared env s hg (by omega) hlt]
    have hih := ih { s with GlobalPoolUseCount := s.GlobalPoolUseCount - 1,
                            log := s.log ++
                              [Event.CriticalSectionStart, Event.CriticalSectionEnd] }
      hg (by simp; omega) (by simp; omega)
    simp only [lockPairs_succ_append] at hih
    rw [hih]
    have harith : s.GlobalPoolUseCount - 1 - k = s.GlobalPoolUseCount - (k + 1) := by omega
    simp only [harith]

/-- The last of `k + 1` releases is executed in the state the first `k` leave. -/
theorem destroyN_succ (env : Env) (Pool : Nat) :
    ∀ (k : Nat) (s : Registry),
      destroyN env Pool (k + 1) s = DestroyThreadPool env (destroyN env Pool k s) Pool := by
  intro k
  induction k with
  | zero => intro s; rfl
  | succ k ih =>
    intro s
    rw [destroyN, ih]
    rfl

/-- Without `RARDLL`, releases in a state with count 0 only lock and unlock. -/
theorem destroyN_idle (env : Env) (hR : env.RARDLL = false) (Pool : Nat) :
    ∀ (k : Nat) (s : Registry), s.GlobalPoolUseCount = 0 →
      destroyN env Pool k s = { s with log := s.log ++ lockPairs k } := by
  intro k
  induction k with
  | zero =>
    intro s _
    simp [destroyN, lockPairs]
  | succ k ih =>
    intro s h0
    rw [destroyN, DestroyThreadPool_idle env s Pool hR h0]
    have hih := ih { s with log := s.log ++
                              [Event.CriticalSectionStart, Event.CriticalSectionEnd] } h0
    simp only [lockPairs_succ_append] at hih
    exact hih

/-- A sequence of acquisitions executed by `run` ends in the state that `createN` computes. -/
theorem run_replicate_create (env : Env) :
    ∀ (n : Nat) (s : Registry),
      run env s (List.replicate n Call.create) = (createN env n s).1 := by
  intro n
  induction n with
  | zero => intro s; rfl
  | succ n ih =>
    intro s
    rw [List.replicate_succ, createN]
    exact ih (CreateThreadPool env s).1

/-- Why the equivalence of C1 as amended is restricted to fewer than `2^32` acquisitions:
without `RARDLL`, after `2^32` acquisitions the count has wrapped to 0 while `GlobalPool`
points to the allocated pool at address 1. -/
theorem run_wrapped_count :
    (run envRAR Registry.init (List.replicate 4294967296 Call.create)).GlobalPoolUseCount = 0 ∧
    (run envRAR Registry.init (List.replicate 4294967296 Call.create)).GlobalPool = 1 ∧
    (run envRAR Registry.init (List.replicate 4294967296 Call.create)).live = [1] := by
  have halloc : envRAR.alloc [] = 1 := rfl
  have hwrap : 4294967296 % 4294967296 = 0 := by decide
  rw [run_replicate_create, createN_init envRAR rfl 4294967296 (by decide) (by decide), halloc,
    hwrap]
  exact ⟨rfl, rfl, rfl⟩

/-- C3, the claim as stated fails at `n = 2^32`: without `RARDLL`, after `2^32` acquisitions
the 32-bit count has wrapped to 0, so none of the `2^32` releases that follow deletes the pool
at address 1, which stays allocated. -/
theorem use_count_wraps :
    (createN envRAR 4294967296 Registry.init).2 = List.replicate 4294967296 1 ∧
    (createN envRAR 4294967296 Registry.init).1.GlobalPoolUseCount = 0 ∧
    (destroyN envRAR 1 4294967296 (createN envRAR 4294967296 Registry.init).1).log.filter
        Event.isDelete = [] ∧
    (destroyN envRAR 1 4294967296 (createN envRAR 4294967296 Registry.init).1).live = [1] := by
  have halloc : envRAR.alloc [] = 1 := rfl
  have hwrap : 4294967296 % 4294967296 = 0 := by decide
  rw [createN_init envRAR rfl 4294967296 (by decide) (by decide), halloc, hwrap]
  refine ⟨rfl, rfl, ?_, ?_⟩
  · rw [destroyN_idle envRAR rfl 1 4294967296 _ rfl]
    simp only [List.filter_append, lockPairs_filter_isDelete, List.append_nil]
    rfl
  · rw [destroyN_idle envRAR rfl 1 4294967296 _ rfl]

/-- C3 as amended: without `RARDLL`, for every `n` with `1 ≤ n < 2^32`, `n` acquisitions from
the empty registry construct exactly one pool and all return it, leaving the count at `n`;
of `n` releases of that pointer the first `n - 1` delete nothing and the `n`-th deletes the
pool, exactly once, leaving count 0 and no pool allocated. -/
theorem shared_pool_lifecycle (env : Env) (hR : env.RARDLL = false)
    (hfresh : FreshAlloc env.alloc) (n : Nat) (h1 : 1 ≤ n) (hn : n < 4294967296) :
    (createN env n Registry.init).2 = List.replicate n (env.alloc []) ∧
    (createN env n Registry.init).1.log.filter Event.isNew =
      [Event.newThreadPool (env.alloc []) env.MaxPoolThreads] ∧
    (createN env n Registry.init).1.GlobalPoolUseCount = n ∧
    (∀ k, k < n →
      (destroyN env (env.alloc []) k (createN env n Registry.init).1).log.filter
          Event.isDelete = [] ∧
      (destroyN env (env.alloc []) k (createN env n Registry.init).1).live = [env.alloc []]) ∧
    (destroyN env (env.alloc []) n (createN env n Registry.init).1).log.filter Event.isDelete =
      [Event.deleteThreadPool (env.alloc [])] ∧
    (destroyN env (env.alloc []) n (createN env n Registry.init).1).GlobalPoolUseCount = 0 ∧
    (destroyN env (env.alloc []) n (createN env n Registry.init).1).live = [] := by
  have hg : env.alloc [] ≠ 0 := (hfresh []).1
  have hmod : n % 4294967296 = n := Nat.mod_eq_of_lt hn
  have hshared : ∀ k, k < n →
      destroyN env (env.alloc []) k (createN env n Registry.init).1 =
        { GlobalPool := env.alloc [], GlobalPoolUseCount := n - k, live := [env.alloc []],
          log := ([Event.CriticalSectionStart,
            Event.newThreadPool (env.alloc []) env.MaxPoolThreads,
            Event.CriticalSectionEnd] ++ lockPairs (n - 1)) ++ lockPairs k } := by
    intro k hk
    rw [createN_init env hR n h1 (by omega), hmod]
    exact destroyN_shared env k
      { GlobalPool := env.alloc [], GlobalPoolUseCount := n, live := [env.alloc []],
        log := [Event.CriticalSectionStart,
          Event.newThreadPool (env.alloc []) env.MaxPoolThreads,
          Event.CriticalSectionEnd] ++ lockPairs (n - 1) } hg hk hn
  have hlast : destroyN env (env.alloc []) n (createN env n Registry.init).1 =
      { GlobalPool := env.alloc [], GlobalPoolUseCount := 0, live := [],
        log := (([Event.CriticalSectionStart,
          Event.newThreadPool (env.alloc []) env.MaxPoolThreads,
          Event.CriticalSectionEnd] ++ lockPairs (n - 1)) ++ lockPairs (n - 1)) ++
          [Event.CriticalSectionStart, Event.deleteThreadPool (env.alloc []),
            Event.CriticalSectionEnd] } := by
    obtain ⟨m, rfl⟩ : ∃ m, n = m + 1 := ⟨n - 1, by omega⟩
    rw [destroyN_succ, hshared m (by omega)]
    have hone : m + 1 - m = 1 := by omega
    rw [hone]
    have hd := DestroyThreadPool_last env
      { GlobalPool := env.alloc [], GlobalPoolUseCount := 1, live := [env.alloc []],
        log := ([Event.CriticalSectionStart,
          Event.newThreadPool (env.alloc []) env.MaxPoolThreads,
          Event.CriticalSectionEnd] ++ lockPairs (m + 1 - 1)) ++ lockPairs m } hg rfl
    rw [hd]
    simp
  refine ⟨?_, ?_, ?_, ?_, ?_, ?_, ?_⟩
  · rw [createN_init env hR n h1 (by omega)]
  · rw [createN_init env hR n h1 (by omega)]
    simp only [List.filter_append, lockPairs_filter_isNew, List.append_nil]
    rfl
  · rw [createN_init env hR n h1 (by omega)]
    exact hmod
  · intro k hk
    rw [hshared k hk]
    refine ⟨?_, rfl⟩
    simp only [List.filter_append, lockPairs_filter_isDelete, List.append_nil]
    rfl
  · rw [hlast]
    simp only [List.filter_append, lockPairs_filter_isDelete, List.append_nil]
    rfl
  · rw [hlast]
  · rw [hlast]

/-- Instance of C3 as amended with three acquisitions and the allocator `bumpAlloc`. -/
theorem shared_pool_lifecycle_witness :
    envRAR.RARDLL = false ∧ FreshAlloc envRAR.alloc ∧ 1 ≤ 3 ∧ 3 < 4294967296 ∧
    ((createN envRAR 3 Registry.init).2 = List.replicate 3 (envRAR.alloc []) ∧
    (createN envRAR 3 Registry.init).1.log.filter Event.isNew =
      [Event.newThreadPool (envRAR.alloc []) envRAR.MaxPoolThreads] ∧
    (createN envRAR 3 Registry.init).1.GlobalPoolUseCount = 3 ∧
    (∀ k, k < 3 →
      (destroyN envRAR (envRAR.alloc []) k (createN envRAR 3 Registry.init).1).log.filter
          Event.isDelete = [] ∧
      (destroyN envRAR (envRAR.alloc []) k (createN envRAR 3 Registry.init).1).live =
        [envRAR.alloc []]) ∧
    (destroyN envRAR (envRAR.alloc []) 3 (createN envRAR 3 Registry.init).1).log.filter
        Event.isDelete = [Event.deleteThreadPool (envRAR.alloc [])] ∧
    (destroyN envRAR (envRAR.alloc []) 3
      (createN envRAR 3 Registry.init).1).GlobalPoolUseCount = 0 ∧
    (destroyN envRAR (envRAR.alloc []) 3 (createN envRAR 3 Registry.init).1).live = []) :=
  ⟨rfl, bumpAlloc_fresh, by decide, by decide,
    shared_pool_lifecycle envRAR rfl bumpAlloc_fresh 3 (by decide) (by decide)⟩

end ThreadMisc
